import Mathlib

/-!
Verification of the flocker control-plane configuration service and its
diagnostics helpers.

The repository ships the integration tests of the control service
(`flocker/control/test/test_httpapi.py`) and a diagnostics script
(`docs/using/administering/flocker-log-export.py`).  The control-plane core
itself (data model, persistence service, HTTP request handlers) is not part
of the excerpt, so those components are modelled here from the specification;
the diagnostics script is embedded directly from its source.
-/

namespace Flocker

/-- Modelled from the spec: a Dataset is identified by `dataset_id` (a UUID
rendered as a string), with a `metadata` string-to-string mapping (default
empty) and an optional non-negative `maximum_size`. -/
structure Dataset where
  dataset_id : String
  metadata : List (String × String)
  maximum_size : Option Int
deriving DecidableEq

/-- Modelled from the spec: a Manifestation is a placement of a Dataset on a
Node, with a `primary` flag. -/
structure Manifestation where
  dataset : Dataset
  primary : Bool
deriving DecidableEq

/-- Modelled from the spec: a Node is identified by `hostname` and holds the
Manifestations located on it. -/
structure Node where
  hostname : String
  manifestations : List Manifestation
deriving DecidableEq

/-- Modelled from the spec: a Deployment is the full desired cluster state,
a collection of Nodes unique by hostname. -/
structure Deployment where
  nodes : List Node
deriving DecidableEq

/-- All Manifestations in a Deployment, across all its Nodes. -/
def allManifestations (d : Deployment) : List Manifestation :=
  d.nodes.flatMap Node.manifestations

/-- The dataset ids of all Manifestations in a Deployment. -/
def datasetIds (d : Deployment) : List String :=
  (allManifestations d).map (fun m => m.dataset.dataset_id)

/-- The hostnames of all Nodes of a Deployment. -/
def hostnames (d : Deployment) : List String :=
  d.nodes.map Node.hostname

/-- Modelled from the spec: the Deployment invariants of section 3 that the
service maintains — Nodes unique by hostname, and dataset ids globally unique
across all Manifestations. -/
def wellFormed (d : Deployment) : Prop :=
  (hostnames d).Nodup ∧ (datasetIds d).Nodup

instance (d : Deployment) : Decidable (wellFormed d) := by
  unfold wellFormed
  infer_instance

/-- The Manifestations of a Deployment carrying a given dataset id, paired
with the hostname of the Node each one is located on. -/
def placements (d : Deployment) (i : String) : List (String × Manifestation) :=
  d.nodes.flatMap (fun n =>
    (n.manifestations.filter (fun m => decide (m.dataset.dataset_id = i))).map
      (fun m => (n.hostname, m)))

/-- Modelled from the spec: copy-on-write construction of a new Deployment
equal to the snapshot except that the Node with the target hostname now
additionally holds the given Manifestation. -/
def addPrimaryManifestation (h : String) (m : Manifestation) (d : Deployment) :
    Deployment :=
  ⟨d.nodes.map (fun n =>
    if n.hostname = h then ⟨n.hostname, m :: n.manifestations⟩ else n)⟩

/-- Modelled from the spec: the decoded body of a `POST /datasets` request
after JSON parsing — the recognised optional fields, plus the names of any
unknown top-level properties in the order they appear in the body. -/
structure DatasetRequest where
  primary : Option String
  dataset_id : Option String
  metadata : Option (List (String × String))
  maximum_size : Option Int
  extraKeys : List String
deriving DecidableEq

/-- The schema-violation message for an unexpected top-level property, as
observed by the repository's `test_wrong_schema` test. -/
def unexpectedPropertyMessage (k : String) : String :=
  "Additional properties are not allowed (u'" ++ k ++ "' was unexpected)"

/-- Modelled from the spec: the Validation Engine of section 4.2 — a pure
structural check returning an ordered list of human-readable violation
messages; it rejects unknown top-level properties, a missing required
`primary`, and a negative `maximum_size`. -/
def validateDatasetRequest (req : DatasetRequest) : List String :=
  req.extraKeys.map unexpectedPropertyMessage
    ++ (if req.primary.isNone then ["'primary' is a required property"] else [])
    ++ (match req.maximum_size with
        | some n => if n < 0 then ["maximum_size is not a non-negative integer"] else []
        | none => [])

/-- Whether the request supplied a `dataset_id` that already identifies a
Manifestation in the snapshot. -/
def suppliedIdInUse (req : DatasetRequest) (d : Deployment) : Bool :=
  match req.dataset_id with
  | some i => decide (i ∈ datasetIds d)
  | none => false

/-- Modelled from the spec: the JSON response envelope — success responses
carry a `result` payload with `primary`, `metadata` and `dataset_id`; failure
responses carry a `description` and optionally an ordered `errors` list. -/
inductive ResponseBody where
  | success (primary : String) (metadata : List (String × String))
      (dataset_id : String)
  | failure (description : String) (errors : Option (List String))
deriving DecidableEq

/-- Modelled from the spec: an HTTP response, a status code and a JSON
envelope body. -/
structure HttpResponse where
  code : Nat
  body : ResponseBody
deriving DecidableEq

/-- The SchemaViolation error description. -/
def schemaErrorDescription : String :=
  "The provided JSON doesn't match the required schema."

/-- The Conflict error description. -/
def conflictDescription : String :=
  "The provided dataset_id is already in use."

/-- The ReferentialIntegrity error description. -/
def unknownNodeDescription : String :=
  "The provided primary node is not part of the cluster."

/-- Modelled from the spec: the StorageFailure envelope is generic; only its
status code (500) is pinned by the spec. -/
def storageErrorDescription : String :=
  "Internal server error."

/-- Modelled from the spec: the `POST /datasets` handler of section 4.3.
`genId` is the fresh random UUID the handler would generate when the body
omits `dataset_id`; `storageOk` is the outcome of the durable write performed
by the Persistence Service.  Returns the HTTP response together with the
Deployment that is current after the request: each failure path
short-circuits and leaves the snapshot untouched; the success path installs
the copy-on-write updated Deployment. -/
def createDataset (req : DatasetRequest) (genId : String) (storageOk : Bool)
    (d : Deployment) : HttpResponse × Deployment :=
  if validateDatasetRequest req = [] then
    match req.primary with
    | none =>
      (⟨400, .failure schemaErrorDescription (some (validateDatasetRequest req))⟩, d)
    | some h =>
      if suppliedIdInUse req d then
        (⟨409, .failure conflictDescription none⟩, d)
      else if h ∈ hostnames d then
        if storageOk then
          (⟨200, .success h (req.metadata.getD []) (req.dataset_id.getD genId)⟩,
            addPrimaryManifestation h
              ⟨⟨req.dataset_id.getD genId, req.metadata.getD [],
                req.maximum_size⟩, true⟩ d)
        else
          (⟨500, .failure storageErrorDescription none⟩, d)
      else
        (⟨400, .failure unknownNodeDescription none⟩, d)
  else
    (⟨400, .failure schemaErrorDescription (some (validateDatasetRequest req))⟩, d)

/-- The dataset ids of the Manifestations located on a single Node. -/
def nodeIds (n : Node) : List String :=
  n.manifestations.map (fun m => m.dataset.dataset_id)

/-- Modelled from the spec: the Configuration Persistence Service applies
`save()` calls strictly serialized, in submission order; a successful save
durably installs the new Deployment as current, while a failed durable write
leaves the current reference unchanged.  `runSaves init saves` is the
snapshot `get()` observes after the given sequence of completed saves, each
tagged with whether its durable write succeeded. -/
def runSaves (init : Deployment) (saves : List (Deployment × Bool)) :
    Deployment :=
  saves.foldl (fun cur s => if s.2 then s.1 else cur) init

/-- Modelled from the spec: the Deployments the service produces — every
snapshot that becomes current after some sequence of `POST /datasets`
requests starting from the initial Deployment, where the fresh random UUID
generated for each request does not already occur in the snapshot it is
generated against. -/
inductive Reachable : Deployment → Deployment → Prop where
  | refl (d : Deployment) : Reachable d d
  | step (d₀ d : Deployment) (req : DatasetRequest) (genId : String)
      (storageOk : Bool) : Reachable d₀ d → genId ∉ datasetIds d →
      Reachable d₀ (createDataset req genId storageOk d).2

/-- Reading of a replacement-field name as a positional index: all-digit
field names denote an index into the positional arguments, any other
non-empty name is a keyword reference. -/
def parseIndex (cs : List Char) : Option Nat :=
  if cs ≠ [] ∧ cs.all Char.isDigit then
    some (cs.foldl (fun acc c => 10 * acc + (c.toNat - 48)) 0)
  else
    none

/-- Model of Python string field substitution as used by
`JournaldLogExporter.export_flocker`: `lookupField posArgs auto field`
resolves one replacement field against positional arguments only (no keyword
arguments are passed at the call site).  An empty field uses automatic
numbering, a numeric field indexes the positional arguments, and a named
field raises `KeyError` carrying the field name, since no keyword argument
can supply it. -/
def lookupField (posArgs : List String) (auto : Nat) (field : List Char) :
    Except String (String × Nat) :=
  if field = [] then
    match posArgs.get? auto with
    | some s => .ok (s, auto + 1)
    | none => .error "tuple index out of range"
  else
    match parseIndex field with
    | some k =>
      match posArgs.get? k with
      | some s => .ok (s, auto)
      | none => .error "tuple index out of range"
    | none => .error (String.mk field)

/-- Model of Python `str.format` restricted to the features the source uses:
plain text and `\x7bfield\x7d` replacement fields, with positional arguments
only.  The accumulator holds the characters of the replacement field
currently being read, if any. -/
def pythonFormatAux (posArgs : List String) :
    Nat → Option (List Char) → List Char → Except String String
  | _, none, [] => .ok ""
  | _, some _, [] => .error "Single brace encountered in format string"
  | auto, none, c :: rest =>
    if c = '\x7b' then
      pythonFormatAux posArgs auto (some []) rest
    else
      (pythonFormatAux posArgs auto none rest).map
        (fun t => String.mk [c] ++ t)
  | auto, some acc, c :: rest =>
    if c = '\x7d' then
      match lookupField posArgs auto acc with
      | .error e => .error e
      | .ok (v, auto') =>
        (pythonFormatAux posArgs auto' none rest).map (fun t => v ++ t)
    else
      pythonFormatAux posArgs auto (some (acc ++ [c])) rest

/-- Model of Python `str.format` on a template with positional arguments:
either the formatted string or the message of the exception formatting
raises. -/
def pythonFormat (template : String) (posArgs : List String) :
    Except String String :=
  pythonFormatAux posArgs 0 none template.toList

/-- The shell command string `JournaldLogExporter.export_flocker` builds
before invoking `check_call`: the source formats the template
`journalctl --all --output cat --unit \x7bunit\x7d | gzip` with the single
positional argument `service_name`. -/
def journaldExportFlockerCommand (service_name : String) :
    Except String String :=
  pythonFormat "journalctl --all --output cat --unit \x7bunit\x7d | gzip"
    [service_name]

/-- The archive path `UpstartLogExporter.export_flocker` writes its
gzip-compressed tar file to: `target_path + \x27.tar.gz\x27`. -/
def upstartExportFlockerPath (target_path : String) : String :=
  target_path ++ ".tar.gz"

/-- From the source: `SystemdServiceManager.flocker_services` iterates the
pairs yielded by `all_services` and yields those whose service name starts
with `flocker-`.  The sequence yielded by `all_services` is the argument. -/
def SystemdServiceManager.flocker_services :
    List (String × String) → List (String × String)
  | [] => []
  | p :: rest =>
    if p.1.startsWith "flocker-" then
      p :: SystemdServiceManager.flocker_services rest
    else
      SystemdServiceManager.flocker_services rest

/-- From the source: `UpstartServiceManager.flocker_services` iterates the
pairs yielded by `all_services` and yields those whose service name starts
with `flocker-`.  The sequence yielded by `all_services` is the argument. -/
def UpstartServiceManager.flocker_services :
    List (String × String) → List (String × String)
  | [] => []
  | p :: rest =>
    if p.1.startsWith "flocker-" then
      p :: UpstartServiceManager.flocker_services rest
    else
      UpstartServiceManager.flocker_services rest

/-! Helper lemmas about the Deployment model. -/

/-- Adding a Manifestation is copy-on-write on the Node contents and leaves
the hostnames of the Deployment unchanged. -/
theorem hostnames_addPrimaryManifestation (h : String) (m : Manifestation)
    (d : Deployment) :
    hostnames (addPrimaryManifestation h m d) = hostnames d := by
  obtain ⟨ns⟩ := d
  induction ns with
  | nil => rfl
  | cons n rest ih =>
    simp only [addPrimaryManifestation, hostnames, List.map_cons] at ih ⊢
    rw [ih]
    by_cases hc : n.hostname = h <;> simp [hc]

/-- Adding a Manifestation for a hostname absent from the Deployment is the
identity. -/
theorem addPrimaryManifestation_not_mem (h : String) (m : Manifestation)
    (d : Deployment) (hh : h ∉ hostnames d) :
    addPrimaryManifestation h m d = d := by
  obtain ⟨ns⟩ := d
  induction ns with
  | nil => rfl
  | cons n rest ih =>
    simp only [hostnames, List.map_cons, List.mem_cons, not_or] at hh
    obtain ⟨h1, h2⟩ := hh
    have hrest := ih (by simpa [hostnames] using h2)
    have hn : n.hostname ≠ h := fun e => h1 e.symm
    simp only [addPrimaryManifestation, List.map_cons, if_neg hn,
      Deployment.mk.injEq, List.cons.injEq] at hrest ⊢
    exact ⟨trivial, hrest⟩

/-- Unfolding of `datasetIds` over a cons of nodes. -/
theorem datasetIds_cons (n : Node) (ns : List Node) :
    datasetIds ⟨n :: ns⟩ = nodeIds n ++ datasetIds ⟨ns⟩ := by
  simp [datasetIds, allManifestations, nodeIds]

/-- Adding a Manifestation to a Deployment that contains exactly one Node
with the target hostname contributes the new dataset id once: the resulting
id multiset is the old one extended with the new id. -/
theorem datasetIds_addPrimaryManifestation (h : String) (m : Manifestation)
    (d : Deployment) (hnd : (hostnames d).Nodup) (hh : h ∈ hostnames d) :
    List.Perm (datasetIds (addPrimaryManifestation h m d))
      (m.dataset.dataset_id :: datasetIds d) := by
  obtain ⟨ns⟩ := d
  induction ns with
  | nil => simp [hostnames] at hh
  | cons n rest ih =>
    have hnd' : n.hostname ∉ hostnames ⟨rest⟩ ∧ (hostnames ⟨rest⟩).Nodup := by
      rw [show hostnames ⟨n :: rest⟩ = n.hostname :: hostnames ⟨rest⟩ from rfl,
        List.nodup_cons] at hnd
      exact hnd
    have hh2 : h = n.hostname ∨ h ∈ hostnames ⟨rest⟩ := by
      rw [show hostnames ⟨n :: rest⟩ = n.hostname :: hostnames ⟨rest⟩ from rfl]
        at hh
      exact List.mem_cons.mp hh
    by_cases hc : n.hostname = h
    · have hnr : h ∉ hostnames ⟨rest⟩ := hc ▸ hnd'.1
      have hid := congrArg Deployment.nodes
        (addPrimaryManifestation_not_mem h m ⟨rest⟩ hnr)
      simp only [addPrimaryManifestation] at hid
      simp only [addPrimaryManifestation, List.map_cons, if_pos hc]
      rw [hid, datasetIds_cons, datasetIds_cons]
      exact List.Perm.refl _
    · have hh' : h ∈ hostnames ⟨rest⟩ := hh2.resolve_left fun e => hc e.symm
      have ih' := ih hnd'.2 hh'
      simp only [addPrimaryManifestation] at ih'
      simp only [addPrimaryManifestation, List.map_cons, if_neg hc]
      rw [datasetIds_cons, datasetIds_cons]
      exact (List.Perm.append_left (nodeIds n) ih').trans List.perm_middle

/-- A Deployment none of whose Manifestations carry the dataset id `i` has
no placements for `i`. -/
theorem placements_eq_nil (i : String) (d : Deployment)
    (hi : ∀ x ∈ datasetIds d, x ≠ i) : placements d i = [] := by
  obtain ⟨ns⟩ := d
  induction ns with
  | nil => rfl
  | cons n rest ih =>
    have hcons : datasetIds ⟨n :: rest⟩ = nodeIds n ++ datasetIds ⟨rest⟩ :=
      datasetIds_cons n rest
    have hn : ∀ m ∈ n.manifestations, ¬(m.dataset.dataset_id = i) := by
      intro m hm e
      exact hi m.dataset.dataset_id
        (hcons ▸ List.mem_append_left _ (List.mem_map_of_mem _ hm)) e
    have hrest : ∀ x ∈ datasetIds ⟨rest⟩, x ≠ i := by
      intro x hx
      exact hi x (hcons ▸ List.mem_append_right _ hx)
    have hfilter : n.manifestations.filter
        (fun m => decide (m.dataset.dataset_id = i)) = [] := by
      rw [List.filter_eq_nil_iff]
      intro m hm
      simpa using hn m hm
    simp only [placements, List.flatMap_cons, hfilter, List.map_nil,
      List.nil_append]
    simpa only [placements] using ih hrest

/-- Adding a Manifestation with a dataset id that is new to the Deployment,
for a hostname held by exactly one Node, places that Manifestation on that
Node and nowhere else. -/
theorem placements_addPrimaryManifestation (h : String) (m : Manifestation)
    (i : String) (d : Deployment) (hmi : m.dataset.dataset_id = i)
    (hnd : (hostnames d).Nodup) (hh : h ∈ hostnames d)
    (hfresh : ∀ x ∈ datasetIds d, x ≠ i) :
    placements (addPrimaryManifestation h m d) i = [(h, m)] := by
  obtain ⟨ns⟩ := d
  induction ns with
  | nil => simp [hostnames] at hh
  | cons n rest ih =>
    have hnd' : n.hostname ∉ hostnames ⟨rest⟩ ∧ (hostnames ⟨rest⟩).Nodup := by
      rw [show hostnames ⟨n :: rest⟩ = n.hostname :: hostnames ⟨rest⟩ from rfl,
        List.nodup_cons] at hnd
      exact hnd
    have hh2 : h = n.hostname ∨ h ∈ hostnames ⟨rest⟩ := by
      rw [show hostnames ⟨n :: rest⟩ = n.hostname :: hostnames ⟨rest⟩ from rfl]
        at hh
      exact List.mem_cons.mp hh
    have hcons : datasetIds ⟨n :: rest⟩ = nodeIds n ++ datasetIds ⟨rest⟩ :=
      datasetIds_cons n rest
    have hnode : ∀ x ∈ n.manifestations, ¬(x.dataset.dataset_id = i) := by
      intro x hx e
      exact hfresh x.dataset.dataset_id
        (hcons ▸ List.mem_append_left _ (List.mem_map_of_mem _ hx)) e
    have hrest : ∀ x ∈ datasetIds ⟨rest⟩, x ≠ i := by
      intro x hx
      exact hfresh x (hcons ▸ List.mem_append_right _ hx)
    have hfilter : n.manifestations.filter
        (fun x => decide (x.dataset.dataset_id = i)) = [] := by
      rw [List.filter_eq_nil_iff]
      intro x hx
      simpa using hnode x hx
    by_cases hc : n.hostname = h
    · have hnr : h ∉ hostnames ⟨rest⟩ := hc ▸ hnd'.1
      have hid := congrArg Deployment.nodes
        (addPrimaryManifestation_not_mem h m ⟨rest⟩ hnr)
      simp only [addPrimaryManifestation] at hid
      simp only [addPrimaryManifestation, List.map_cons, if_pos hc]
      rw [hid]
      have htail : placements ⟨rest⟩ i = [] := placements_eq_nil i ⟨rest⟩ hrest
      simp only [placements, List.flatMap_cons] at htail ⊢
      rw [htail, List.append_nil, List.filter_cons, if_pos (by simpa using hmi),
        hfilter, List.map_cons, List.map_nil, hc]
    · have hh' : h ∈ hostnames ⟨rest⟩ := hh2.resolve_left fun e => hc e.symm
      have ih' := ih hnd'.2 hh' hrest
      simp only [addPrimaryManifestation] at ih'
      simp only [addPrimaryManifestation, List.map_cons, if_neg hc]
      simp only [placements, List.flatMap_cons] at ih' ⊢
      rw [hfilter, List.map_nil, List.nil_append, ih']

/-- Adding a Manifestation for a hostname present in the Deployment makes
its dataset id present in the Deployment. -/
theorem mem_datasetIds_addPrimaryManifestation (h : String)
    (m : Manifestation) (d : Deployment) (hh : h ∈ hostnames d) :
    m.dataset.dataset_id ∈ datasetIds (addPrimaryManifestation h m d) := by
  obtain ⟨ns⟩ := d
  induction ns with
  | nil => simp [hostnames] at hh
  | cons n rest ih =>
    have hh2 : h = n.hostname ∨ h ∈ hostnames ⟨rest⟩ := by
      rw [show hostnames ⟨n :: rest⟩ = n.hostname :: hostnames ⟨rest⟩ from rfl]
        at hh
      exact List.mem_cons.mp hh
    by_cases hc : n.hostname = h
    · simp only [addPrimaryManifestation, List.map_cons, if_pos hc]
      rw [datasetIds_cons]
      exact List.mem_append_left _ (List.mem_cons_self _ _)
    · have hh' : h ∈ hostnames ⟨rest⟩ := hh2.resolve_left fun e => hc e.symm
      have ih' := ih hh'
      simp only [addPrimaryManifestation] at ih'
      simp only [addPrimaryManifestation, List.map_cons, if_neg hc]
      rw [datasetIds_cons]
      exact List.mem_append_right _ ih'

/-- A request that passes schema validation carries the required `primary`
field. -/
theorem validate_primary_some (req : DatasetRequest)
    (hv : validateDatasetRequest req = []) : ∃ h, req.primary = some h := by
  cases hp : req.primary with
  | some h => exact ⟨h, rfl⟩
  | none =>
    exfalso
    simp [validateDatasetRequest, hp] at hv

/-- Every response of the handler either reports success or returns the
snapshot unchanged. -/
theorem createDataset_code_or (req : DatasetRequest) (genId : String)
    (ok : Bool) (d : Deployment) :
    (createDataset req genId ok d).1.code = 200 ∨
      (createDataset req genId ok d).2 = d := by
  by_cases hv : validateDatasetRequest req = []
  · cases hp : req.primary with
    | none => right; simp [createDataset, hv, hp]
    | some h =>
      cases hin : suppliedIdInUse req d
      · by_cases hh : h ∈ hostnames d
        · cases ok
          · right; simp [createDataset, hv, hp, hin, hh]
          · left; simp [createDataset, hv, hp, hin, hh]
        · right; simp [createDataset, hv, hp, hin, hh]
      · right; simp [createDataset, hv, hp, hin]
  · right; simp [createDataset, hv]

/-- Characterization of a successful create: the request passed validation,
its primary names an existing Node, any supplied id was unused, storage
succeeded, and the new snapshot is the copy-on-write extension. -/
theorem createDataset_code200 (req : DatasetRequest) (genId : String)
    (ok : Bool) (d : Deployment)
    (hc : (createDataset req genId ok d).1.code = 200) :
    ∃ h, req.primary = some h ∧ validateDatasetRequest req = [] ∧
      suppliedIdInUse req d = false ∧ h ∈ hostnames d ∧ ok = true ∧
      (createDataset req genId ok d).2 =
        addPrimaryManifestation h
          ⟨⟨req.dataset_id.getD genId, req.metadata.getD [],
            req.maximum_size⟩, true⟩ d := by
  by_cases hv : validateDatasetRequest req = []
  · cases hp : req.primary with
    | none => simp [createDataset, hv, hp] at hc
    | some h =>
      cases hin : suppliedIdInUse req d
      · by_cases hh : h ∈ hostnames d
        · cases ok
          · simp [createDataset, hv, hp, hin, hh] at hc
          · exact ⟨h, rfl, hv, rfl, hh, rfl,
              by simp [createDataset, hv, hp, hin, hh]⟩
        · simp [createDataset, hv, hp, hin, hh] at hc
      · simp [createDataset, hv, hp, hin] at hc
  · simp [createDataset, hv] at hc

/-- A request whose supplied dataset id is already in use never succeeds. -/
theorem createDataset_inUse_code (req : DatasetRequest) (genId : String)
    (ok : Bool) (d : Deployment) (hin : suppliedIdInUse req d = true) :
    (createDataset req genId ok d).1.code ≠ 200 := by
  by_cases hv : validateDatasetRequest req = []
  · cases hp : req.primary with
    | none => simp [createDataset, hv, hp]
    | some h => simp [createDataset, hv, hp, hin]
  · simp [createDataset, hv]

/-- The handler preserves the Deployment invariants, provided the generated
UUID is fresh for the snapshot. -/
theorem createDataset_wellFormed (req : DatasetRequest) (genId : String)
    (ok : Bool) (d : Deployment) (hwf : wellFormed d)
    (hg : genId ∉ datasetIds d) :
    wellFormed (createDataset req genId ok d).2 := by
  rcases createDataset_code_or req genId ok d with hc | hc
  · obtain ⟨h, hp, hv, hin, hh, hok, hd2⟩ := createDataset_code200 req genId ok d hc
    rw [hd2]
    have hfresh : req.dataset_id.getD genId ∉ datasetIds d := by
      cases hdi : req.dataset_id with
      | none => simpa [hdi] using hg
      | some j =>
        simp only [hdi, Option.getD_some]
        intro hmem
        simp [suppliedIdInUse, hdi, hmem] at hin
    constructor
    · rw [hostnames_addPrimaryManifestation]
      exact hwf.1
    · have hperm := datasetIds_addPrimaryManifestation h
        ⟨⟨req.dataset_id.getD genId, req.metadata.getD [],
          req.maximum_size⟩, true⟩ d hwf.1 hh
      exact hperm.nodup_iff.mpr (List.nodup_cons.mpr ⟨hfresh, hwf.2⟩)
  · rw [hc]
    exact hwf

/-- Every Deployment the service produces is well-formed. -/
theorem reachable_wellFormed (d₀ d : Deployment) (hwf : wellFormed d₀)
    (hr : Reachable d₀ d) : wellFormed d := by
  induction hr with
  | refl => exact hwf
  | step d' req genId ok hr' hg ih =>
    exact createDataset_wellFormed req genId ok d' ih hg

/-- When dataset ids are globally unique, at most one Manifestation per
dataset id is primary: any two distinct Manifestations that are both primary
have different dataset ids. -/
theorem nodup_ids_pairwise (l : List Manifestation)
    (hl : (l.map (fun m => m.dataset.dataset_id)).Nodup) :
    l.Pairwise (fun m₁ m₂ => m₁.primary = true → m₂.primary = true →
      m₁.dataset.dataset_id ≠ m₂.dataset.dataset_id) := by
  have hl' : l.Pairwise (fun a b => a.dataset.dataset_id ≠ b.dataset.dataset_id) :=
    List.pairwise_map.mp hl
  exact hl'.imp fun hne => fun _ _ => hne

/-- The Systemd service listing keeps exactly the entries whose name starts
with the flocker prefix. -/
theorem systemd_flocker_services_eq (l : List (String × String)) :
    SystemdServiceManager.flocker_services l =
      l.filter (fun p => p.1.startsWith "flocker-") := by
  induction l with
  | nil => rfl
  | cons p rest ih =>
    cases hc : p.1.startsWith "flocker-" <;>
      simp [SystemdServiceManager.flocker_services, List.filter_cons, hc, ih]

/-- The Upstart service listing keeps exactly the entries whose name starts
with the flocker prefix. -/
theorem upstart_flocker_services_eq (l : List (String × String)) :
    UpstartServiceManager.flocker_services l =
      l.filter (fun p => p.1.startsWith "flocker-") := by
  induction l with
  | nil => rfl
  | cons p rest ih =>
    cases hc : p.1.startsWith "flocker-" <;>
      simp [UpstartServiceManager.flocker_services, List.filter_cons, hc, ih]

/-! Claim theorems. -/

/-- C1: for every snapshot containing a Node with the requested hostname, a
`POST /datasets` request supplying only that hostname as `primary` succeeds
with HTTP 200; the result carries that primary hostname, an empty metadata
mapping and the freshly generated UUID as `dataset_id`, and that id
identifies exactly one Manifestation in the subsequent snapshot, located on
the requested node, with `primary = true`. -/
theorem minimal_create_dataset_ok (d : Deployment) (h genId : String)
    (hwf : wellFormed d) (hh : h ∈ hostnames d) (hg : genId ∉ datasetIds d) :
    createDataset ⟨some h, none, none, none, []⟩ genId true d =
      (⟨200, .success h [] genId⟩,
        addPrimaryManifestation h ⟨⟨genId, [], none⟩, true⟩ d) ∧
    placements (createDataset ⟨some h, none, none, none, []⟩ genId true d).2
      genId = [(h, ⟨⟨genId, [], none⟩, true⟩)] := by
  have hv : validateDatasetRequest ⟨some h, none, none, none, []⟩ = [] := rfl
  have hin : suppliedIdInUse ⟨some h, none, none, none, []⟩ d = false := rfl
  have heq : createDataset ⟨some h, none, none, none, []⟩ genId true d =
      (⟨200, .success h [] genId⟩,
        addPrimaryManifestation h ⟨⟨genId, [], none⟩, true⟩ d) := by
    simp [createDataset, hv, hin, hh]
  refine ⟨heq, ?_⟩
  rw [heq]
  exact placements_addPrimaryManifestation h ⟨⟨genId, [], none⟩, true⟩ genId d
    rfl hwf.1 hh (fun x hx e => hg (e ▸ hx))

/-- Witness for C1 at a concrete snapshot with node `10.0.0.1` and no
datasets. -/
theorem minimal_create_dataset_ok_witness :
    (wellFormed (⟨[⟨"10.0.0.1", []⟩]⟩ : Deployment) ∧
      "10.0.0.1" ∈ hostnames ⟨[⟨"10.0.0.1", []⟩]⟩ ∧
      "uuid-0001" ∉ datasetIds ⟨[⟨"10.0.0.1", []⟩]⟩) ∧
    createDataset ⟨some "10.0.0.1", none, none, none, []⟩ "uuid-0001" true
        ⟨[⟨"10.0.0.1", []⟩]⟩ =
      (⟨200, .success "10.0.0.1" [] "uuid-0001"⟩,
        addPrimaryManifestation "10.0.0.1" ⟨⟨"uuid-0001", [], none⟩, true⟩
          ⟨[⟨"10.0.0.1", []⟩]⟩) ∧
    placements (createDataset ⟨some "10.0.0.1", none, none, none, []⟩
        "uuid-0001" true ⟨[⟨"10.0.0.1", []⟩]⟩).2 "uuid-0001" =
      [("10.0.0.1", ⟨⟨"uuid-0001", [], none⟩, true⟩)] := by
  refine ⟨⟨by decide, by decide, by decide⟩, ?_⟩
  exact minimal_create_dataset_ok ⟨[⟨"10.0.0.1", []⟩]⟩ "10.0.0.1" "uuid-0001"
    (by decide) (by decide) (by decide)

/-- C2: every Deployment the service produces satisfies the uniqueness
invariant — no two Manifestations share a dataset id, and at most one
Manifestation per dataset id has `primary = true` (any two distinct primary
Manifestations carry different dataset ids). -/
theorem produced_deployments_unique (d₀ d : Deployment) (hwf : wellFormed d₀)
    (hr : Reachable d₀ d) :
    (datasetIds d).Nodup ∧
    (allManifestations d).Pairwise (fun m₁ m₂ => m₁.primary = true →
      m₂.primary = true → m₁.dataset.dataset_id ≠ m₂.dataset.dataset_id) := by
  have hwfd : wellFormed d := reachable_wellFormed d₀ d hwf hr
  exact ⟨hwfd.2, nodup_ids_pairwise _ hwfd.2⟩

/-- Witness for C2 after one request applied to a concrete snapshot. -/
theorem produced_deployments_unique_witness :
    wellFormed (⟨[⟨"10.0.0.1", []⟩]⟩ : Deployment) ∧
    ((datasetIds (createDataset ⟨some "10.0.0.1", none, none, none, []⟩
        "uuid-0001" true ⟨[⟨"10.0.0.1", []⟩]⟩).2).Nodup ∧
      (allManifestations (createDataset ⟨some "10.0.0.1", none, none, none, []⟩
        "uuid-0001" true ⟨[⟨"10.0.0.1", []⟩]⟩).2).Pairwise
        (fun m₁ m₂ => m₁.primary = true → m₂.primary = true →
          m₁.dataset.dataset_id ≠ m₂.dataset.dataset_id)) := by
  refine ⟨by decide, ?_⟩
  exact produced_deployments_unique ⟨[⟨"10.0.0.1", []⟩]⟩ _ (by decide)
    (Reachable.step _ _ ⟨some "10.0.0.1", none, none, none, []⟩ "uuid-0001"
      true (Reachable.refl _) (by decide))

/-- C3: after any rejected request — any response other than HTTP 200 — the
current Deployment is structurally identical to the pre-request snapshot; no
error path installs a partially updated Deployment. -/
theorem rejected_request_leaves_snapshot (req : DatasetRequest)
    (genId : String) (storageOk : Bool) (d : Deployment) :
    (createDataset req genId storageOk d).1.code = 200 ∨
      (createDataset req genId storageOk d).2 = d :=
  createDataset_code_or req genId storageOk d

/-- C4: a schema-valid request supplying a dataset id already identifying a
Manifestation in the snapshot receives HTTP 409 with the conflict envelope,
and the Deployment is left identical to before the request. -/
theorem dataset_id_collision_conflict (req : DatasetRequest)
    (i genId : String) (ok : Bool) (d : Deployment)
    (hv : validateDatasetRequest req = []) (hi : req.dataset_id = some i)
    (hmem : i ∈ datasetIds d) :
    createDataset req genId ok d =
      (⟨409, .failure conflictDescription none⟩, d) := by
  obtain ⟨h, hp⟩ := validate_primary_some req hv
  have hin : suppliedIdInUse req d = true := by
    simp [suppliedIdInUse, hi, hmem]
  simp [createDataset, hv, hp, hin]

/-- Witness for C4: Scenario B, one dataset `X-id` primary on node
`10.0.0.1`, re-creation with the same id. -/
theorem dataset_id_collision_conflict_witness :
    validateDatasetRequest ⟨some "10.0.0.1", some "X-id", none, none, []⟩ = [] ∧
    "X-id" ∈ datasetIds ⟨[⟨"10.0.0.1", [⟨⟨"X-id", [], none⟩, true⟩]⟩]⟩ ∧
    createDataset ⟨some "10.0.0.1", some "X-id", none, none, []⟩ "g-1" true
        ⟨[⟨"10.0.0.1", [⟨⟨"X-id", [], none⟩, true⟩]⟩]⟩ =
      (⟨409, .failure conflictDescription none⟩,
        ⟨[⟨"10.0.0.1", [⟨⟨"X-id", [], none⟩, true⟩]⟩]⟩) := by
  refine ⟨by decide, by decide, ?_⟩
  exact dataset_id_collision_conflict _ "X-id" "g-1" true _ (by decide) rfl
    (by decide)

/-- C5: a schema-valid request without a colliding dataset id whose
`primary` hostname matches no Node receives HTTP 400 with the
referential-integrity envelope, and the Deployment is unchanged. -/
theorem unknown_primary_node_rejected (req : DatasetRequest)
    (h genId : String) (ok : Bool) (d : Deployment)
    (hv : validateDatasetRequest req = []) (hp : req.primary = some h)
    (hin : suppliedIdInUse req d = false) (hh : h ∉ hostnames d) :
    createDataset req genId ok d =
      (⟨400, .failure unknownNodeDescription none⟩, d) := by
  simp [createDataset, hv, hp, hin, hh]

/-- Witness for C5: Scenario C, a snapshot with no nodes. -/
theorem unknown_primary_node_rejected_witness :
    validateDatasetRequest ⟨some "10.0.0.1", none, none, none, []⟩ = [] ∧
    suppliedIdInUse ⟨some "10.0.0.1", none, none, none, []⟩ ⟨[]⟩ = false ∧
    "10.0.0.1" ∉ hostnames ⟨[]⟩ ∧
    createDataset ⟨some "10.0.0.1", none, none, none, []⟩ "g-1" true ⟨[]⟩ =
      (⟨400, .failure unknownNodeDescription none⟩, ⟨[]⟩) := by
  refine ⟨by decide, by decide, by decide, ?_⟩
  exact unknown_primary_node_rejected _ "10.0.0.1" "g-1" true ⟨[]⟩ (by decide)
    rfl (by decide) (by decide)

/-- C6: a request carrying an unknown top-level property is rejected with
HTTP 400 and the schema-violation envelope holding the ordered validation
error list, an entry of which names the unexpected property; validation runs
before any business logic, so the Deployment is untouched. -/
theorem schema_violation_rejected (req : DatasetRequest) (genId : String)
    (ok : Bool) (d : Deployment) (k : String) (hk : k ∈ req.extraKeys) :
    createDataset req genId ok d =
      (⟨400, .failure schemaErrorDescription
        (some (validateDatasetRequest req))⟩, d) ∧
    unexpectedPropertyMessage k ∈ validateDatasetRequest req := by
  have hmem : unexpectedPropertyMessage k ∈ validateDatasetRequest req := by
    simp only [validateDatasetRequest, List.mem_append]
    exact Or.inl (Or.inl (List.mem_map_of_mem _ hk))
  have hne : validateDatasetRequest req ≠ [] := by
    intro h0
    rw [h0] at hmem
    exact List.not_mem_nil _ hmem
  refine ⟨?_, hmem⟩
  unfold createDataset
  rw [if_neg hne]

/-- Witness for C6: Scenario D, a body with the unexpected property
`junk`. -/
theorem schema_violation_rejected_witness :
    "junk" ∈ (⟨some "10.0.0.1", none, none, none, ["junk"]⟩ :
      DatasetRequest).extraKeys ∧
    createDataset ⟨some "10.0.0.1", none, none, none, ["junk"]⟩ "g-1" true
        ⟨[]⟩ =
      (⟨400, .failure schemaErrorDescription (some (validateDatasetRequest
        ⟨some "10.0.0.1", none, none, none, ["junk"]⟩))⟩, ⟨[]⟩) ∧
    unexpectedPropertyMessage "junk" ∈ validateDatasetRequest
      ⟨some "10.0.0.1", none, none, none, ["junk"]⟩ := by
  refine ⟨by decide, ?_⟩
  exact schema_violation_rejected _ "g-1" true ⟨[]⟩ "junk" (by decide)

/-- C7: Persistence Service saves are applied in submission order, and a
`get()` issued after the completion signal of `save(d)` fires observes
exactly `d`: right after `save(d)` completes the snapshot is `d`, and saves
submitted later apply, in order, starting from `d`. -/
theorem save_get_ordering (init d : Deployment)
    (pre post : List (Deployment × Bool)) :
    runSaves init (pre ++ [(d, true)]) = d ∧
    runSaves init (pre ++ (d, true) :: post) = runSaves d post := by
  constructor <;> simp [runSaves, List.foldl_append]

/-- C8: two create requests targeting the same dataset id, executed under
the serialized read-check-save discipline, cannot both succeed: once the
first commits, the second observes the committed id and is rejected. -/
theorem concurrent_create_same_id (d : Deployment)
    (req₁ req₂ : DatasetRequest) (g₁ g₂ i : String) (ok₁ ok₂ : Bool)
    (h₁ : req₁.dataset_id = some i) (h₂ : req₂.dataset_id = some i) :
    ¬((createDataset req₁ g₁ ok₁ d).1.code = 200 ∧
      (createDataset req₂ g₂ ok₂ (createDataset req₁ g₁ ok₁ d).2).1.code
        = 200) := by
  rintro ⟨c₁, c₂⟩
  obtain ⟨h, hp, hv, hin, hh, hok, hd2⟩ :=
    createDataset_code200 req₁ g₁ ok₁ d c₁
  have hmem : i ∈ datasetIds (createDataset req₁ g₁ ok₁ d).2 := by
    rw [hd2]
    have hm := mem_datasetIds_addPrimaryManifestation h
      ⟨⟨req₁.dataset_id.getD g₁, req₁.metadata.getD [],
        req₁.maximum_size⟩, true⟩ d hh
    simpa [h₁] using hm
  have hin₂ : suppliedIdInUse req₂ (createDataset req₁ g₁ ok₁ d).2 = true := by
    simp [suppliedIdInUse, h₂, hmem]
  exact createDataset_inUse_code req₂ g₂ ok₂ _ hin₂ c₂

/-- Witness for C8 at a concrete snapshot and two identical create
requests for dataset id `X-id`. -/
theorem concurrent_create_same_id_witness :
    (⟨some "10.0.0.1", some "X-id", none, none, []⟩ :
        DatasetRequest).dataset_id = some "X-id" ∧
    ¬((createDataset ⟨some "10.0.0.1", some "X-id", none, none, []⟩ "g-1" true
        ⟨[⟨"10.0.0.1", []⟩]⟩).1.code = 200 ∧
      (createDataset ⟨some "10.0.0.1", some "X-id", none, none, []⟩ "g-2" true
        (createDataset ⟨some "10.0.0.1", some "X-id", none, none, []⟩ "g-1"
          true ⟨[⟨"10.0.0.1", []⟩]⟩).2).1.code = 200) := by
  refine ⟨rfl, ?_⟩
  exact concurrent_create_same_id ⟨[⟨"10.0.0.1", []⟩]⟩ _ _ "g-1" "g-2" "X-id"
    true true rfl rfl

/-- C9: the command string `JournaldLogExporter.export_flocker` formats
before writing anything raises `KeyError` on the named field `unit` for
every service name — the positional `format` argument can never fill a named
field, so the exporter fails before creating the compressed artifact its
documentation promises. -/
theorem journald_export_flocker_raises (service_name : String) :
    journaldExportFlockerCommand service_name = .error "unit" := by
  simp [journaldExportFlockerCommand, pythonFormat, pythonFormatAux,
    lookupField, parseIndex, Except.map]

/-- C10: for both service managers, `flocker_services` yields exactly the
(name, status) pairs of `all_services` whose name starts with `flocker-`,
in the order `all_services` yields them: it equals the order-preserving
filter of the input, a subsequence of it. -/
theorem flocker_services_filter (l : List (String × String)) :
    SystemdServiceManager.flocker_services l =
      l.filter (fun p => p.1.startsWith "flocker-") ∧
    UpstartServiceManager.flocker_services l =
      l.filter (fun p => p.1.startsWith "flocker-") ∧
    List.Sublist (SystemdServiceManager.flocker_services l) l := by
  refine ⟨systemd_flocker_services_eq l, upstart_flocker_services_eq l, ?_⟩
  rw [systemd_flocker_services_eq l]
  exact List.filter_sublist l

end Flocker
